import Mathlib

/-!
Shallow embedding of the Stellantis integration's remote-action confirmation
protocol (homeassistant/components/stellantis): the webhook receiver
(`webhook.py`), the waiter table kept in `hass.data[DOMAIN]`
(`StellantisCallbackEvent.__enter__/__exit__`), the caller's await loop
(`entity.py`, `StellantisBaseActionableEntity.async_call_remote_action`), and
the vehicle-list / vehicle-status fetchers (`api.py`, `coordinator.py`).

Python dicts keyed by strings are modelled as association lists with
first-match lookup; `d[k] = v` removes any old binding and appends the new
one; `d.pop(k, None)` removes the binding.  Awaiting a future is modelled by
consuming entries of an explicit script (each entry is the outcome the caller
observes at that suspension point: either a resolved event-status payload or
a `TimeoutError` delivered by the enclosing `asyncio.timeout`).  Exhausting
the script mid-await makes the run undefined (`none`): theorems always supply
an adequate script.
-/

namespace Stellantis

/-- A string-keyed Python dict, as an association list (first match wins). -/
abbrev Dict (α : Type) : Type := List (String × α)

/-- `d[k]`-style lookup returning `none` when the key is absent. -/
def dictGet {α : Type} : Dict α → String → Option α
  | [], _ => none
  | (k', v) :: t, k => if k' = k then some v else dictGet t k

/-- `d.pop(k, None)`: remove the binding for `k` (no-op when absent). -/
def dictPop {α : Type} (t : Dict α) (k : String) : Dict α :=
  t.filter (fun p => p.1 != k)

/-- `d[k] = v`: overwrite any existing binding for `k` with `v`. -/
def dictSet {α : Type} (t : Dict α) (k : String) (v : α) : Dict α :=
  dictPop t k ++ [(k, v)]

theorem dictPop_cons {α : Type} (p : String × α) (t : Dict α) (k : String) :
    dictPop (p :: t) k =
      if p.1 = k then dictPop t k else p :: dictPop t k := by
  by_cases h : p.1 = k <;> simp [dictPop, List.filter_cons, h]

theorem dictGet_pop_self {α : Type} (t : Dict α) (k : String) :
    dictGet (dictPop t k) k = none := by
  induction t with
  | nil => rfl
  | cons p t ih =>
    rw [dictPop_cons]
    by_cases h : p.1 = k
    · simp [h, ih]
    · simp [h, dictGet, ih]

theorem dictGet_pop_other {α : Type} (t : Dict α) (k k' : String) (h : k' ≠ k) :
    dictGet (dictPop t k) k' = dictGet t k' := by
  induction t with
  | nil => rfl
  | cons p t ih =>
    rw [dictPop_cons]
    by_cases hp : p.1 = k
    · have hpk' : p.1 ≠ k' := fun hk => h (by rw [← hk, hp])
      simp [hp, dictGet, hpk', ih, Ne.symm h]
    · by_cases hq : p.1 = k'
      · simp [hp, dictGet, hq, h]
      · simp [hp, dictGet, hq, ih, h]

theorem dictGet_append_left {α : Type} (t u : Dict α) (k : String)
    (h : dictGet t k = none) :
    dictGet (t ++ u) k = dictGet u k := by
  induction t with
  | nil => rfl
  | cons p t ih =>
    by_cases hp : p.1 = k
    · simp [dictGet, hp] at h
    · simp only [dictGet, hp, if_false] at h
      show dictGet (p :: (t ++ u)) k = dictGet u k
      simp [dictGet, hp, ih h]

theorem dictGet_set_self {α : Type} (t : Dict α) (k : String) (v : α) :
    dictGet (dictSet t k v) k = some v := by
  unfold dictSet
  rw [dictGet_append_left _ _ _ (dictGet_pop_self t k)]
  simp [dictGet]

theorem dictGet_set_other {α : Type} (t : Dict α) (k k' : String) (v : α)
    (h : k' ≠ k) : dictGet (dictSet t k v) k' = dictGet t k' := by
  unfold dictSet
  have hkk' : ¬(k = k') := fun hk => h hk.symm
  rw [← dictGet_pop_other t k k' h]
  induction (dictPop t k) with
  | nil => simp [dictGet, hkk']
  | cons p t' ih =>
    show dictGet (p :: (t' ++ [(k, v)])) k' = dictGet (p :: t') k'
    by_cases hq : p.1 = k'
    · simp [dictGet, hq]
    · simp [dictGet, hq, ih]

theorem dictPop_set_self {α : Type} (t : Dict α) (k : String) (v : α) :
    dictPop (dictSet t k v) k = dictPop t k := by
  unfold dictSet dictPop
  rw [List.filter_append]
  simp [List.filter_filter]

theorem dictPop_pop_self {α : Type} (t : Dict α) (k : String) :
    dictPop (dictPop t k) k = dictPop t k := by
  unfold dictPop
  rw [List.filter_filter]
  simp

/-- JSON values, as delivered to the webhook handler by `request.json()`. -/
inductive Json where
  | null
  | bool (b : Bool)
  | num (n : Int)
  | str (s : String)
  | arr (elems : List Json)
  | obj (fields : List (String × Json))

/-- `homeassistant.helpers.config_validation.string`: rejects `None`, lists
and dicts, and coerces every other value with Python `str(...)`. -/
def cv_string : Json → Option String
  | .null => none
  | .bool b => some (if b then "True" else "False")
  | .num n => some (toString n)
  | .str s => some s
  | .arr _ => none
  | .obj _ => none

/-- A `vol.Any(lit, ...)` of string literals: the value must equal one of
them (voluptuous compares literal schemas by equality). -/
def volAnyLiteral (lits : List String) : Json → Option String
  | .str s => if lits.contains s then some s else none
  | _ => none

/-- The validated `eventStatus` sub-document of a webhook payload.  `status`
and `failureCause` are kept optional because the caller-side code
(`entity.py`) accesses them with `[...]` / `.get(...)` on dicts that are not
always schema-validated (the tests inject a status-free Pending event). -/
structure EventStatus where
  type : String
  status : Option String
  failureCause : Option String
deriving DecidableEq, Repr

/-- A webhook payload after `WEBHOOK_SCHEMA` validation. -/
structure WebhookEvent where
  remoteActionId : String
  eventStatus : EventStatus
deriving DecidableEq, Repr

/-- The inner `vol.Schema` for `eventStatus` in `WEBHOOK_SCHEMA`
(webhook.py lines 29-43): required `type` in {"Pending","Done"}, required
`status` in {"Success","AlreadyDone","Failed"}, optional `failureCause`
(`cv.string`).  This inner schema has no `extra=vol.ALLOW_EXTRA`, so
voluptuous' default `PREVENT_EXTRA` rejects unknown keys. -/
def validate_event_status : Json → Option EventStatus
  | .obj kvs =>
    if kvs.all (fun p =>
        p.1 == "type" || p.1 == "status" || p.1 == "failureCause") then
      match dictGet kvs "type" with
      | none => none
      | some tj =>
        match volAnyLiteral ["Pending", "Done"] tj with
        | none => none
        | some ty =>
          match dictGet kvs "status" with
          | none => none
          | some sj =>
            match volAnyLiteral ["Success", "AlreadyDone", "Failed"] sj with
            | none => none
            | some st =>
              match dictGet kvs "failureCause" with
              | none => some ⟨ty, some st, none⟩
              | some fj => (cv_string fj).map fun fc => ⟨ty, some st, some fc⟩
    else none
  | _ => none

/-- `WEBHOOK_SCHEMA` (webhook.py lines 24-49): the payload must be a dict
with a required `remoteEvent` dict carrying a required `remoteActionId`
(`cv.string`, so coerced to a string) and a required `eventStatus`; both the
top level and `remoteEvent` allow extra keys (`extra=vol.ALLOW_EXTRA`).
Returns the validated/coerced data, `none` meaning `vol.Invalid`. -/
def WEBHOOK_SCHEMA : Json → Option WebhookEvent
  | .obj kvs =>
    match dictGet kvs "remoteEvent" with
    | none => none
    | some (.obj rkvs) =>
      match dictGet rkvs "remoteActionId" with
      | none => none
      | some aj =>
        match cv_string aj with
        | none => none
        | some aid =>
          match dictGet rkvs "eventStatus" with
          | none => none
          | some ej => (validate_event_status ej).map fun es => ⟨aid, es⟩
    | some _ => none
  | _ => none

/-- State of a `StellantisCallbackEvent` (an `asyncio.Future`) stored in the
waiter table `hass.data[DOMAIN]`. -/
inductive WaiterState where
  | pending
  | resolved (result : EventStatus)
deriving DecidableEq, Repr

/-- The waiter table `hass.data[DOMAIN]`: remote action id → future. -/
abbrev Handlers := Dict WaiterState

/-- What the webhook HTTP handler produces. -/
inductive WebhookResponse where
  | ok
  | badRequest
  | invalidStateError
deriving DecidableEq, Repr

/-- Result of one `handle_webhook` call: the HTTP response (`ok` = 200,
`badRequest` = 400, `invalidStateError` = `Future.set_result` raised
`asyncio.InvalidStateError` because the future was already done, so the
handler raises instead of returning), the updated waiter table, and whether
`LOGGER.error` ran. -/
structure WebhookOutcome where
  response : WebhookResponse
  handlers : Handlers
  errorLogged : Bool
deriving DecidableEq, Repr

/-- `handle_webhook` (webhook.py lines 52-72): validate the payload (400 and
`LOGGER.error` on `vol.Invalid`); for a `Done` event look up the action id in
`hass.data[DOMAIN]` and, when a future is registered, call
`set_result(event_status)` on it; acknowledge with 200.  Pending events are
only debug-logged: they are never delivered to the waiter. -/
def handle_webhook (payload : Json) (handlers : Handlers) : WebhookOutcome :=
  match WEBHOOK_SCHEMA payload with
  | none => ⟨.badRequest, handlers, true⟩
  | some ev =>
    if ev.eventStatus.type = "Done" then
      match dictGet handlers ev.remoteActionId with
      | none => ⟨.ok, handlers, false⟩
      | some .pending =>
        ⟨.ok, dictSet handlers ev.remoteActionId (.resolved ev.eventStatus),
          false⟩
      | some (.resolved _) => ⟨.invalidStateError, handlers, false⟩
    else ⟨.ok, handlers, false⟩

/-- `StellantisCallbackEvent.__enter__` (webhook.py lines 84-88): store the
future in `hass.data[DOMAIN]` under its action id, unconditionally
(`handlers[self.remote_action_id] = self`).  The second component records the
log messages this method emits: the source contains no logging call here, and
no failure path. -/
def callbackEvent_enter {α : Type} (remote_action_id : String) (w : α)
    (hassData : Dict α) : Dict α × List String :=
  (dictSet hassData remote_action_id w, [])

/-- `StellantisCallbackEvent.__exit__` (webhook.py lines 90-93):
`handlers.pop(self.remote_action_id, None)`. -/
def callbackEvent_exit {α : Type} (remote_action_id : String)
    (hassData : Dict α) : Dict α :=
  dictPop hassData remote_action_id

/-- Operations `async_call_remote_action` performs on the waiter table, in
program order; `awaitPt` marks the suspension point `await callback_event`. -/
inductive TableOp where
  | register (id : String)
  | awaitPt (id : String)
  | unregister (id : String)
deriving DecidableEq, Repr

/-- What one `await callback_event` observes: either the `event_status` dict
the future was resolved with, or the `TimeoutError` injected by the
surrounding `asyncio.timeout(10)` when the overall budget elapses. -/
inductive AwaitResult where
  | event (ev : EventStatus)
  | timeout
deriving DecidableEq, Repr

/-- How `async_call_remote_action` finishes.  `success` = the `break` after
`on_remote_action_success`; `breakNoop` = the `break` reached with an event
type that is neither "Pending" nor "Done" (no `case` matches, nothing
applied); `failed` = the `HomeAssistantError` raised for a Failed status;
`timedOut` = `TimeoutError` caught by the `except` clause; `keyError` = an
uncaught Python `KeyError` on the named dict key. -/
inductive CallOutcome where
  | success
  | breakNoop
  | failed (msg : String)
  | timedOut
  | keyError (key : String)
deriving DecidableEq, Repr

/-- Observable result of one `async_call_remote_action` run: the outcome,
how many times `await callback_event` was executed, the sequence of waiter
table operations, the final waiter table, whether
`on_remote_action_success(state_if_success)` ran, and the `LOGGER.warning`
messages emitted. -/
structure CallResult where
  outcome : CallOutcome
  awaits : Nat
  trace : List TableOp
  table : Handlers
  successApplied : Bool
  warnings : List String
deriving DecidableEq, Repr

/-- The message of the `HomeAssistantError` raised on a Failed status
(entity.py lines 124-126): the vendor's `failureCause` when present,
`"Not specified"` otherwise (`event_status.get(ATTR_FAILURE_CAUSE, "Not
specified")`). -/
def failure_message (failureCause : Option String) : String :=
  "Remote action failed. Cause: " ++ failureCause.getD "Not specified"

/-- The table operations of one loop iteration: `__enter__` registers, the
caller suspends on the future, `__exit__` unregisters — on every exit path
(`continue`, `break`, raise, timeout cancellation). -/
def traceBlock (id : String) : List TableOp :=
  [.register id, .awaitPt id, .unregister id]

/-- `n` loop iterations' worth of table operations. -/
def traceBlocks (id : String) : Nat → List TableOp
  | 0 => []
  | n + 1 => traceBlock id ++ traceBlocks id n

/-- The `while True` loop of `async_call_remote_action` (entity.py lines
113-128), driven by a script giving each `await callback_event` outcome.
Each iteration enters a fresh `StellantisCallbackEvent` context (register),
awaits it, and leaves the context (unregister) whatever happens next:
`continue` on "Pending", `break` after `on_remote_action_success` on "Done"
with a non-"Failed" status, `HomeAssistantError` on "Done"/"Failed",
`KeyError` on "Done" without a `status` key, plain `break` on any other event
type, and `TimeoutError` when the overall 10s budget fires at the await.
An exhausted script (`none`) means the run is not determined by the script. -/
def remoteActionLoop (id : String) (table : Handlers) :
    List AwaitResult → Option CallResult
  | [] => none
  | r :: rest =>
    let t1 := (callbackEvent_enter id WaiterState.pending table).1
    match r with
    | .timeout =>
      some ⟨.timedOut, 1, traceBlock id, callbackEvent_exit id t1, false, []⟩
    | .event ev =>
      let t2 := callbackEvent_exit id t1
      if ev.type = "Pending" then
        match remoteActionLoop id t2 rest with
        | none => none
        | some res =>
          some { res with
            awaits := res.awaits + 1, trace := traceBlock id ++ res.trace }
      else if ev.type = "Done" then
        match ev.status with
        | none => some ⟨.keyError "status", 1, traceBlock id, t2, false, []⟩
        | some st =>
          if st = "Failed" then
            some ⟨.failed (failure_message ev.failureCause), 1, traceBlock id,
              t2, false, []⟩
          else
            some ⟨.success, 1, traceBlock id, t2, true, []⟩
      else
        some ⟨.breakNoop, 1, traceBlock id, t2, false, []⟩

/-- entity.py lines 107-109. -/
def untracked_warning (logger_action : String) : String :=
  "The remote action to " ++ logger_action ++
    " will not be tracked as the remote action ID is missing from the API response"

/-- entity.py lines 130-132. -/
def confirmation_timeout_warning (logger_action : String) : String :=
  "Confirmation of the remote action to " ++ logger_action ++
    " was not received in time"

/-- `async_call_remote_action` (entity.py lines 95-132) after the dispatch
call returned `response_data`; only the presence and value of
`response_data[ATTR_REMOTE_ACTION_ID]` matter from here on.  When the id is
missing the method logs the untracked warning and then evaluates
`response_data[ATTR_REMOTE_ACTION_ID]` anyway (line 115), raising a
`KeyError` that no `except` clause catches (only `TimeoutError` is); no
waiter is ever created.  When the id is present, the loop runs; a caught
`TimeoutError` adds the confirmation-timeout warning. -/
def async_call_remote_action (logger_action : String)
    (response_data_remote_action_id : Option String)
    (script : List AwaitResult) (table : Handlers) : Option CallResult :=
  match response_data_remote_action_id with
  | none =>
    some ⟨.keyError "remoteActionId", 0, [], table, false,
      [untracked_warning logger_action]⟩
  | some id =>
    (remoteActionLoop id table script).map fun res =>
      { res with
        warnings :=
          if res.outcome = .timedOut then
            [confirmation_timeout_warning logger_action]
          else [] }

/-- `StellantisBaseToggleEntity.on_remote_action_success` (entity.py lines
176-179): `self._attr_is_on = state_if_success`. -/
def toggle_on_remote_action_success (state_if_success : Bool)
    (_attr_is_on : Option Bool) : Option Bool :=
  some state_if_success

/-- The toggle entity's `_attr_is_on` after a remote action call: updated by
`on_remote_action_success` exactly when that callback ran, untouched
otherwise. -/
def entity_state_after (r : CallResult) (state_if_success : Bool)
    (s0 : Option Bool) : Option Bool :=
  if r.successApplied then toggle_on_remote_action_success state_if_success s0
  else s0

/-- Result of an end-to-end run: caller waiting, webhooks delivered over
HTTP.  `responses` are the HTTP responses of the delivered webhooks in
order. -/
structure CoupledResult where
  outcome : CallOutcome
  awaits : Nat
  table : Handlers
  responses : List WebhookResponse
  successApplied : Bool
  warnings : List String
deriving DecidableEq, Repr

/-- One cooperative schedule of the caller loop against a stream of inbound
webhooks: the caller is suspended on its registered future; each webhook is
handled atomically by `handle_webhook`; as soon as the caller's future is
resolved the caller resumes (processing the event exactly as in
`remoteActionLoop`) before the next webhook is handled.  Exhausting the
webhook stream while the caller is still waiting is the timeout: the 10s
budget fires, `__exit__` unregisters, and the caller logs the
confirmation-timeout warning. -/
def runCoupledGo (logger_action id : String) :
    List Json → Handlers → Nat → List WebhookResponse → CoupledResult
  | [], table, awaits, acc =>
    ⟨.timedOut, awaits, callbackEvent_exit id table, acc.reverse, false,
      [confirmation_timeout_warning logger_action]⟩
  | w :: rest, table, awaits, acc =>
    let o := handle_webhook w table
    match dictGet o.handlers id with
    | some (.resolved ev) =>
      let t2 := callbackEvent_exit id o.handlers
      if ev.type = "Pending" then
        runCoupledGo logger_action id rest
          (callbackEvent_enter id WaiterState.pending t2).1 (awaits + 1)
          (o.response :: acc)
      else if ev.type = "Done" then
        match ev.status with
        | none =>
          ⟨.keyError "status", awaits, t2, (o.response :: acc).reverse, false,
            []⟩
        | some st =>
          if st = "Failed" then
            ⟨.failed (failure_message ev.failureCause), awaits, t2,
              (o.response :: acc).reverse, false, []⟩
          else
            ⟨.success, awaits, t2, (o.response :: acc).reverse, true, []⟩
      else ⟨.breakNoop, awaits, t2, (o.response :: acc).reverse, false, []⟩
    | _ => runCoupledGo logger_action id rest o.handlers awaits
        (o.response :: acc)

/-- Run the remote-action protocol end to end for action id `id`: the caller
registers its waiter (synchronously, before first suspending) and the given
webhook payloads are then delivered in order. -/
def runCoupled (logger_action id : String) (table0 : Handlers)
    (webhooks : List Json) : CoupledResult :=
  runCoupledGo logger_action id webhooks
    (callbackEvent_enter id WaiterState.pending table0).1 1 []

/-- Whether a webhook payload would be dispatched to the waiter for `id`:
it validates, names `id`, and is a Done event (`handle_webhook` forwards
only Done events). -/
def resolvesId (id : String) (payload : Json) : Bool :=
  match WEBHOOK_SCHEMA payload with
  | some ev => ev.remoteActionId == id && ev.eventStatus.type == "Done"
  | none => false

/-- A well-formed vendor webhook payload `{"remoteEvent": {"remoteActionId":
id, "eventStatus": {"type": ty, "status": st}}}`. -/
def webhook_payload (id ty st : String) : Json :=
  Json.obj [("remoteEvent", Json.obj
    [("remoteActionId", Json.str id),
     ("eventStatus", Json.obj
       [("type", Json.str ty), ("status", Json.str st)])])]

/-- Whether `sub` is a prefix of `l` (character lists). -/
def startsWithL : List Char → List Char → Bool
  | _, [] => true
  | [], _ :: _ => false
  | a :: as, b :: bs => a == b && startsWithL as bs

/-- Whether `sub` occurs contiguously inside `l`. -/
def containsSubL (sub : List Char) : List Char → Bool
  | [] => startsWithL [] sub
  | c :: t => startsWithL (c :: t) sub || containsSubL sub t

/-- Whether the string `sub` occurs contiguously inside `s`. -/
def strContains (s sub : String) : Bool :=
  containsSubL sub.data s.data

/-- `VehicleData` (api.py lines 17-37 and coordinator.py lines 19-39). -/
structure VehicleData where
  vin : String
  id : String
  brand : Option String
  label : Option String
deriving DecidableEq, Repr

/-- One page of the vendor's paginated `/user/vehicles` listing, as the
fetching code observes it: whether the HTTP status was a success, the
already-parsed vehicle records of the page (in response order:
`parse_from_api_data` is mapped over `result["_embedded"]["vehicles"]` by an
order-preserving comprehension), and whether `"next" in result["_links"]`. -/
structure PageResp where
  ok : Bool
  vehicles : List VehicleData
  hasNext : Bool
deriving DecidableEq, Repr

/-- How `StellantisApi.async_get_vehicles` ends: `success vs` is the
`return vehicles` of the `else:` clause; `failure` means an exception was
raised (`raise_for_status` on a non-success page), caught by an `except`
clause that runs `LOGGER.exception` — the function then falls off the end
and returns `None`, discarding every page already fetched. -/
inductive ApiVehiclesResult where
  | success (vehicles : List VehicleData)
  | failure
deriving DecidableEq, Repr

/-- The pagination loop of `StellantisApi.async_get_vehicles` (api.py lines
71-83).  `none` = the scripted pages ran out while a next link was still
advertised (the run is not determined by the script). -/
def apiGetVehiclesGo (acc : List VehicleData) (hasNext : Bool) :
    List PageResp → Option ApiVehiclesResult
  | [] => if hasNext then none else some (.success acc)
  | p :: rest =>
    if hasNext then
      if p.ok then apiGetVehiclesGo (acc ++ p.vehicles) p.hasNext rest
      else some .failure
    else some (.success acc)

/-- `StellantisApi.async_get_vehicles` (api.py lines 47-90) over scripted
page responses: the first page is requested, `raise_for_status` makes any
non-success page raise `ClientResponseError`, which the `except` clause logs;
only a fully successful run reaches the `else: return vehicles`. -/
def api_async_get_vehicles (first : PageResp) (rest : List PageResp) :
    Option ApiVehiclesResult :=
  if first.ok then apiGetVehiclesGo first.vehicles first.hasNext rest
  else some .failure

/-- Observable result of `StellantisUpdateCoordinator.get_vehicles`
(coordinator.py lines 64-104): the final `self.vehicles_data`, the returned
value (`some false` for the early `return False`, `none` for falling off the
end), and whether the `except (TimeoutError, ClientError)` clause's
`LOGGER.error` ran. -/
structure CoordVehiclesResult where
  vehicles_data : List VehicleData
  retval : Option Bool
  errorLogged : Bool
deriving DecidableEq, Repr

/-- The pagination loop of `StellantisUpdateCoordinator.get_vehicles`
(coordinator.py lines 89-102): a non-OK later page hits the `else: break` —
no logging, the accumulated `self.vehicles_data` is kept. -/
def coordGetVehiclesGo (acc : List VehicleData) (hasNext : Bool) :
    List PageResp → Option CoordVehiclesResult
  | [] => if hasNext then none else some ⟨acc, none, false⟩
  | p :: rest =>
    if hasNext then
      if p.ok then coordGetVehiclesGo (acc ++ p.vehicles) p.hasNext rest
      else some ⟨acc, none, false⟩
    else some ⟨acc, none, false⟩

/-- `StellantisUpdateCoordinator.get_vehicles` (coordinator.py lines 64-104)
over scripted page responses, starting from the current
`self.vehicles_data`. -/
def coordinator_get_vehicles (first : PageResp) (rest : List PageResp)
    (vehicles_data : List VehicleData) : Option CoordVehiclesResult :=
  if first.ok then coordGetVehiclesGo first.vehicles first.hasNext rest
  else some ⟨vehicles_data, some false, false⟩

/-- `StellantisApi.async_get_vehicle_status` (api.py lines 92-106): non-OK
status → `LOGGER.error` and `return None`; OK → the parsed body.  The pair's
second component records whether the error was logged. -/
def api_async_get_vehicle_status (status : Nat) (body : Json) :
    Option Json × Bool :=
  if status ≠ 200 then (none, true) else (some body, false)

/-- `StellantisUpdateCoordinator.get_vehicle_status` (coordinator.py lines
106-119): on a non-OK status it logs an error and stores an EMPTY dict over
whatever snapshot `self.vehicles_status[vehicle.vin]` held; on OK it stores
the response body.  Returns the updated `vehicles_status` and whether
`LOGGER.error` ran. -/
def coordinator_get_vehicle_status (vin : String) (status : Nat) (body : Json)
    (vehicles_status : Dict Json) : Dict Json × Bool :=
  if status ≠ 200 then (dictSet vehicles_status vin (Json.obj []), true)
  else (dictSet vehicles_status vin body, false)

theorem remoteActionLoop_spec (id : String) :
    ∀ (script : List AwaitResult) (table : Handlers) (r : CallResult),
      remoteActionLoop id table script = some r →
      r.table = dictPop table id ∧ r.trace = traceBlocks id r.awaits ∧
      1 ≤ r.awaits ∧ r.awaits ≤ script.length := by
  intro script
  induction script with
  | nil => intro table r h; exact absurd h (by simp [remoteActionLoop])
  | cons a rest ih =>
    intro table r h
    cases a with
    | timeout =>
      simp only [remoteActionLoop, Option.some.injEq] at h
      subst h
      refine ⟨?_, ?_, ?_, ?_⟩
      · simp [callbackEvent_exit, callbackEvent_enter, dictPop_set_self]
      · simp [traceBlocks, traceBlock]
      · simp
      · simp
    | event ev =>
      simp only [remoteActionLoop] at h
      by_cases hp : ev.type = "Pending"
      · rw [if_pos hp] at h
        cases hrec : remoteActionLoop id
            (callbackEvent_exit id
              (callbackEvent_enter id WaiterState.pending table).1) rest with
        | none => rw [hrec] at h; simp at h
        | some res =>
          rw [hrec] at h
          simp only [Option.some.injEq] at h
          subst h
          obtain ⟨h1, h2, h3, h4⟩ := ih _ _ hrec
          refine ⟨?_, ?_, ?_, ?_⟩
          · simpa [callbackEvent_exit, callbackEvent_enter, dictPop_set_self,
              dictPop_pop_self] using h1
          · simp [traceBlocks, h2]
          · simp
          · simpa using h4
      · rw [if_neg hp] at h
        by_cases hd : ev.type = "Done"
        · rw [if_pos hd] at h
          cases hs : ev.status with
          | none =>
            rw [hs] at h
            simp only [Option.some.injEq] at h
            subst h
            refine ⟨?_, ?_, ?_, ?_⟩
            · simp [callbackEvent_exit, callbackEvent_enter, dictPop_set_self]
            · simp [traceBlocks, traceBlock]
            · simp
            · simp
          | some st =>
            rw [hs] at h
            dsimp only at h
            by_cases hf : st = "Failed"
            · rw [if_pos hf] at h
              simp only [Option.some.injEq] at h
              subst h
              refine ⟨?_, ?_, ?_, ?_⟩
              · simp [callbackEvent_exit, callbackEvent_enter,
                  dictPop_set_self]
              · simp [traceBlocks, traceBlock]
              · simp
              · simp
            · rw [if_neg hf] at h
              simp only [Option.some.injEq] at h
              subst h
              refine ⟨?_, ?_, ?_, ?_⟩
              · simp [callbackEvent_exit, callbackEvent_enter,
                  dictPop_set_self]
              · simp [traceBlocks, traceBlock]
              · simp
              · simp
        · rw [if_neg hd] at h
          simp only [Option.some.injEq] at h
          subst h
          refine ⟨?_, ?_, ?_, ?_⟩
          · simp [callbackEvent_exit, callbackEvent_enter, dictPop_set_self]
          · simp [traceBlocks, traceBlock]
          · simp
          · simp

/-- Recognizer for `register` table operations. -/
def isRegisterOp : TableOp → Bool
  | .register _ => true
  | _ => false

/-- Recognizer for `unregister` table operations. -/
def isUnregisterOp : TableOp → Bool
  | .unregister _ => true
  | _ => false

/-- Scan of a table-operation trace checking that every `awaitPt i` is
immediately preceded by `register i`: the waiter is in the table before the
task suspends.  `prev` is the previous operation seen. -/
def regBeforeAwaitAux : Option TableOp → List TableOp → Bool
  | _, [] => true
  | prev, op :: rest =>
    (match op with
     | .awaitPt i => prev == some (TableOp.register i)
     | _ => true) && regBeforeAwaitAux (some op) rest

/-- Every `awaitPt i` in the trace is immediately preceded by `register i`. -/
def regBeforeAwait (l : List TableOp) : Bool :=
  regBeforeAwaitAux none l

theorem regBeforeAwaitAux_traceBlocks (id : String) :
    ∀ (n : Nat) (prev : Option TableOp),
      regBeforeAwaitAux prev (traceBlocks id n) = true := by
  intro n
  induction n with
  | zero => intro prev; rfl
  | succ n ih =>
    intro prev
    simp [traceBlocks, traceBlock, regBeforeAwaitAux, ih]

theorem countP_register_traceBlocks (id : String) (n : Nat) :
    (traceBlocks id n).countP isRegisterOp = n := by
  induction n with
  | zero => rfl
  | succ n ih =>
    simp [traceBlocks, traceBlock, List.countP_cons, isRegisterOp, ih]

theorem countP_unregister_traceBlocks (id : String) (n : Nat) :
    (traceBlocks id n).countP isUnregisterOp = n := by
  induction n with
  | zero => rfl
  | succ n ih =>
    simp [traceBlocks, traceBlock, List.countP_cons, isUnregisterOp, ih]

theorem startsWithL_refl (l : List Char) : startsWithL l l = true := by
  induction l with
  | nil => rfl
  | cons c t ih => simp [startsWithL, ih]

theorem containsSubL_append (l : List Char) :
    ∀ pre : List Char, containsSubL l (pre ++ l) = true := by
  intro pre
  induction pre with
  | nil =>
    show containsSubL l l = true
    cases l with
    | nil => rfl
    | cons c t => simp [containsSubL, startsWithL_refl]
  | cons c pre ih =>
    show containsSubL l (c :: (pre ++ l)) = true
    simp [containsSubL, ih]

theorem string_data_append (s t : String) :
    (s ++ t).data = s.data ++ t.data := by
  cases s; cases t; rfl

theorem strContains_append (pre suf : String) :
    strContains (pre ++ suf) suf = true := by
  unfold strContains
  rw [string_data_append]
  exact containsSubL_append suf.data pre.data

/-- C2 (code bug): when the dispatch response carries no
`remoteActionId`, `async_call_remote_action` logs the untracked warning and
creates no waiter (empty trace, table untouched), but then evaluates
`response_data[ATTR_REMOTE_ACTION_ID]` at line 115 anyway, and the resulting
`KeyError` escapes the method (only `TimeoutError` is caught): the call does
NOT complete without raising.  Evaluation at the failing input — a response
dict without the id. -/
theorem c2_missing_action_id_raises :
    async_call_remote_action "activate the preconditioning" none [] [] =
      some ⟨.keyError "remoteActionId", 0, [], [], false,
        [untracked_warning "activate the preconditioning"]⟩ := rfl

/-- C3: in every run of the caller's await loop, each `awaitPt` in the
waiter-table trace is immediately preceded by the `register` of the same
action id — the waiter is fully in the table before the task yields — and
the webhook side resolves by id: a schema-valid Done payload whose action id
has a pending registered waiter resolves exactly that waiter. -/
theorem c3_register_before_await :
    (∀ (id : String) (table : Handlers) (script : List AwaitResult)
        (r : CallResult), remoteActionLoop id table script = some r →
        regBeforeAwait r.trace = true) ∧
    (∀ (payload : Json) (table : Handlers) (ev : WebhookEvent),
        WEBHOOK_SCHEMA payload = some ev →
        ev.eventStatus.type = "Done" →
        dictGet table ev.remoteActionId = some WaiterState.pending →
        dictGet (handle_webhook payload table).handlers ev.remoteActionId =
          some (WaiterState.resolved ev.eventStatus)) := by
  constructor
  · intro id table script r h
    obtain ⟨-, h2, -, -⟩ := remoteActionLoop_spec id script table r h
    unfold regBeforeAwait
    rw [h2]
    exact regBeforeAwaitAux_traceBlocks id r.awaits none
  · intro payload table ev hv hd hp
    unfold handle_webhook
    rw [hv]
    simp only [hd, if_pos, hp]
    exact dictGet_set_self table ev.remoteActionId _

/-- C3 witness: a concrete timed-out run has a register immediately before
its await, and a concrete Done webhook resolves the concrete pending
waiter. -/
theorem c3_register_before_await_witness :
    regBeforeAwait [TableOp.register "abc", TableOp.awaitPt "abc",
      TableOp.unregister "abc"] = true ∧
    dictGet (handle_webhook (webhook_payload "abc" "Done" "Success")
        [("abc", WaiterState.pending)]).handlers "abc" =
      some (WaiterState.resolved ⟨"Done", some "Success", none⟩) :=
  ⟨c3_register_before_await.1 "abc" [] [AwaitResult.timeout]
      ⟨CallOutcome.timedOut, 1,
        [TableOp.register "abc", TableOp.awaitPt "abc",
          TableOp.unregister "abc"], [], false, []⟩ rfl,
    c3_register_before_await.2 (webhook_payload "abc" "Done" "Success")
      [("abc", WaiterState.pending)] ⟨"abc", "Done", some "Success", none⟩
      rfl rfl rfl⟩

/-- C4: whatever the outcome of a run of the await loop (success, failure
status, key error, or timeout), the trace holds exactly one `register` and
exactly one `unregister` per await, the action id is absent from the waiter
table afterwards, and every other id's binding is untouched. -/
theorem c4_teardown_exactly_once :
    ∀ (id : String) (table : Handlers) (script : List AwaitResult)
      (r : CallResult), remoteActionLoop id table script = some r →
      r.trace.countP isRegisterOp = r.awaits ∧
      r.trace.countP isUnregisterOp = r.awaits ∧
      dictGet r.table id = none ∧
      ∀ k, k ≠ id → dictGet r.table k = dictGet table k := by
  intro id table script r h
  obtain ⟨h1, h2, -, -⟩ := remoteActionLoop_spec id script table r h
  refine ⟨?_, ?_, ?_, ?_⟩
  · rw [h2]; exact countP_register_traceBlocks id r.awaits
  · rw [h2]; exact countP_unregister_traceBlocks id r.awaits
  · rw [h1]; exact dictGet_pop_self table id
  · intro k hk
    rw [h1]; exact dictGet_pop_other table id k hk

/-- C4 witness: a concrete timed-out run registers once, unregisters once,
and leaves the table without the action id. -/
theorem c4_teardown_exactly_once_witness :
    ([TableOp.register "abc", TableOp.awaitPt "abc",
        TableOp.unregister "abc"].countP isRegisterOp = 1) ∧
    dictGet ([] : Handlers) "abc" = none :=
  ⟨(c4_teardown_exactly_once "abc" [] [AwaitResult.timeout]
      ⟨CallOutcome.timedOut, 1,
        [TableOp.register "abc", TableOp.awaitPt "abc",
          TableOp.unregister "abc"], [], false, []⟩ rfl).1,
    (c4_teardown_exactly_once "abc" [] [AwaitResult.timeout]
      ⟨CallOutcome.timedOut, 1,
        [TableOp.register "abc", TableOp.awaitPt "abc",
          TableOp.unregister "abc"], [], false, []⟩ rfl).2.2.1⟩

/-- C5 counterexample: with waiter `1` registered for id "abc",
`StellantisCallbackEvent.__enter__` for a second waiter `2` and the same id
succeeds, silently replaces the stored waiter (the table now maps "abc" to
`2`, the old waiter is gone), and logs nothing — the claim that a duplicate
registration fails and is logged is false. -/
theorem c5_counterexample :
    (callbackEvent_enter "abc" (2 : Nat) [("abc", 1)]).1 = [("abc", 2)] ∧
    (callbackEvent_enter "abc" (2 : Nat) [("abc", 1)]).2 = [] := ⟨rfl, rfl⟩

/-- C5 (amended): registering a waiter for an action id never fails and is
never logged; `handlers[self.remote_action_id] = self` unconditionally
overwrites, so after entering, the table maps the id to the new waiter
whatever it held before. -/
theorem c5_amended_overwrite :
    ∀ (α : Type) (id : String) (w : α) (t : Dict α),
      callbackEvent_enter id w t = (dictSet t id w, []) ∧
      dictGet (callbackEvent_enter id w t).1 id = some w := by
  intro α id w t
  exact ⟨rfl, dictGet_set_self t id w⟩

/-- C8 counterexample: a Done/Failed event with no `failureCause` makes the
caller raise `HomeAssistantError` with message "Remote action failed. Cause:
Not specified" — which does not contain the string "unspecified" claimed by
the spec. -/
theorem c8_counterexample :
    failure_message none = "Remote action failed. Cause: Not specified" ∧
    strContains (failure_message none) "unspecified" = false ∧
    (async_call_remote_action "sound the horn" (some "abc")
        [AwaitResult.event ⟨"Done", some "Failed", none⟩] []).map
      CallResult.outcome = some (.failed (failure_message none)) :=
  ⟨rfl, rfl, rfl⟩

/-- C8 (amended): a Done/Failed event makes the caller raise a domain error
whose message contains the vendor's failure cause when one is present, and
the string "Not specified" when the cause is absent. -/
theorem c8_amended_failure_cause :
    ∀ (id logger_action : String) (cause : Option String) (table : Handlers),
      (async_call_remote_action logger_action (some id)
          [AwaitResult.event ⟨"Done", some "Failed", cause⟩] table).map
        CallResult.outcome = some (.failed (failure_message cause)) ∧
      (∀ c, cause = some c →
        strContains (failure_message cause) c = true) ∧
      (cause = none →
        strContains (failure_message cause) "Not specified" = true) := by
  intro id logger_action cause table
  refine ⟨rfl, ?_, ?_⟩
  · intro c hc
    subst hc
    show strContains ("Remote action failed. Cause: " ++ c) c = true
    exact strContains_append _ c
  · intro hc
    subst hc
    rfl

/-- The toggle entity's `_attr_is_on` after a run described only by whether
`on_remote_action_success` was applied. -/
def applied_toggle_state (successApplied : Bool) (state_if_success : Bool)
    (s0 : Option Bool) : Option Bool :=
  if successApplied then toggle_on_remote_action_success state_if_success s0
  else s0

theorem handle_webhook_payload_pending (id : String) (t : Handlers) :
    handle_webhook (webhook_payload id "Pending" "Success") t =
      ⟨.ok, t, false⟩ := rfl

theorem handle_webhook_payload_done (id : String) (t : Handlers)
    (h : dictGet t id = some WaiterState.pending) :
    handle_webhook (webhook_payload id "Done" "Success") t =
      ⟨.ok, dictSet t id (.resolved ⟨"Done", some "Success", none⟩),
        false⟩ := by
  have hv : WEBHOOK_SCHEMA (webhook_payload id "Done" "Success") =
      some ⟨id, ⟨"Done", some "Success", none⟩⟩ := rfl
  unfold handle_webhook
  rw [hv]
  simp [h]

theorem runCoupledGo_step_skip (logger_action id : String) (w : Json)
    (rest : List Json) (t : Handlers) (n : Nat)
    (acc : List WebhookResponse)
    (h : dictGet (handle_webhook w t).handlers id =
      some WaiterState.pending) :
    runCoupledGo logger_action id (w :: rest) t n acc =
      runCoupledGo logger_action id rest (handle_webhook w t).handlers n
        ((handle_webhook w t).response :: acc) := by
  conv_lhs => unfold runCoupledGo
  dsimp only
  rw [h]

theorem runCoupledGo_step_done_success (logger_action id : String) (w : Json)
    (rest : List Json) (t : Handlers) (n : Nat)
    (acc : List WebhookResponse)
    (h : dictGet (handle_webhook w t).handlers id =
      some (WaiterState.resolved ⟨"Done", some "Success", none⟩)) :
    runCoupledGo logger_action id (w :: rest) t n acc =
      ⟨CallOutcome.success, n,
        callbackEvent_exit id (handle_webhook w t).handlers,
        ((handle_webhook w t).response :: acc).reverse, true, []⟩ := by
  conv_lhs => unfold runCoupledGo
  dsimp only
  rw [h]
  simp

/-- C1 counterexample: delivering a Pending webhook and then a Done/Success
webhook for the same action id resolves the caller after a SINGLE internal
await (`handle_webhook` forwards only Done events to the waiter, so the
Pending delivery never wakes the caller and no fresh waiter is re-registered
for it), with final outcome success: the claimed "awaits exactly twice
internally" is false. -/
theorem c1_counterexample :
    (runCoupled "turn on the lights" "abc" []
        [webhook_payload "abc" "Pending" "Success",
         webhook_payload "abc" "Done" "Success"]).outcome =
      CallOutcome.success ∧
    (runCoupled "turn on the lights" "abc" []
        [webhook_payload "abc" "Pending" "Success",
         webhook_payload "abc" "Done" "Success"]).successApplied = true ∧
    (runCoupled "turn on the lights" "abc" []
        [webhook_payload "abc" "Pending" "Success",
         webhook_payload "abc" "Done" "Success"]).awaits = 1 ∧
    ¬ (runCoupled "turn on the lights" "abc" []
        [webhook_payload "abc" "Pending" "Success",
         webhook_payload "abc" "Done" "Success"]).awaits = 2 := by
  refine ⟨rfl, rfl, rfl, by decide⟩

/-- C1 (amended): over the wire, a Pending webhook followed by a Done/Success
webhook is acknowledged (200, 200) but only the Done event is dispatched to
the waiter: the caller awaits exactly once, `on_remote_action_success` runs,
no error is raised, and the waiter is gone from the table.  The loop's
Pending branch itself is correct but is exercised only when a Pending
`event_status` is delivered directly to the waiter's future (as the tests
do by patching its `__await__`): then the caller re-registers a fresh waiter,
awaits exactly twice, and the final outcome is success. -/
theorem c1_amended_single_await :
    (∀ (logger_action id : String) (table0 : Handlers),
      runCoupled logger_action id table0
          [webhook_payload id "Pending" "Success",
           webhook_payload id "Done" "Success"] =
        ⟨CallOutcome.success, 1, dictPop table0 id,
          [WebhookResponse.ok, WebhookResponse.ok], true, []⟩) ∧
    (∀ (id : String) (table : Handlers),
      (remoteActionLoop id table
          [AwaitResult.event ⟨"Pending", none, none⟩,
           AwaitResult.event ⟨"Done", some "Success", none⟩]).map
        (fun r => (r.outcome, r.awaits, r.successApplied)) =
      some (CallOutcome.success, 2, true)) := by
  constructor
  · intro logger_action id table0
    have h1 : dictGet (callbackEvent_enter id WaiterState.pending table0).1 id
        = some WaiterState.pending := dictGet_set_self table0 id _
    have hw1 := handle_webhook_payload_pending id
      (callbackEvent_enter id WaiterState.pending table0).1
    have hw2 := handle_webhook_payload_done id
      (callbackEvent_enter id WaiterState.pending table0).1 h1
    have step1 := runCoupledGo_step_skip logger_action id
      (webhook_payload id "Pending" "Success")
      [webhook_payload id "Done" "Success"]
      (callbackEvent_enter id WaiterState.pending table0).1 1 []
      (by rw [hw1]; exact h1)
    simp only [hw1] at step1
    have step2 := runCoupledGo_step_done_success logger_action id
      (webhook_payload id "Done" "Success") []
      (callbackEvent_enter id WaiterState.pending table0).1 1
      [WebhookResponse.ok]
      (by rw [hw2]; exact dictGet_set_self _ _ _)
    simp only [hw2] at step2
    show runCoupledGo logger_action id
      [webhook_payload id "Pending" "Success",
        webhook_payload id "Done" "Success"]
      (callbackEvent_enter id WaiterState.pending table0).1 1 [] = _
    rw [step1, step2]
    show CoupledResult.mk _ _
      (callbackEvent_exit id (dictSet
        (callbackEvent_enter id WaiterState.pending table0).1 id _)) _ _ _ = _
    refine congrArg (fun t => CoupledResult.mk CallOutcome.success 1 t
      [WebhookResponse.ok, WebhookResponse.ok] true []) ?_
    show callbackEvent_exit id _ = dictPop table0 id
    unfold callbackEvent_exit callbackEvent_enter
    rw [dictPop_set_self, dictPop_set_self]
  · intro id table
    rfl

/-- C1 witness: a concrete instance of both parts of the amended claim. -/
theorem c1_amended_single_await_witness :
    runCoupled "turn on the lights" "xyz" []
        [webhook_payload "xyz" "Pending" "Success",
         webhook_payload "xyz" "Done" "Success"] =
      ⟨CallOutcome.success, 1, [],
        [WebhookResponse.ok, WebhookResponse.ok], true, []⟩ ∧
    (remoteActionLoop "xyz" []
        [AwaitResult.event ⟨"Pending", none, none⟩,
         AwaitResult.event ⟨"Done", some "Success", none⟩]).map
      (fun r => (r.outcome, r.awaits, r.successApplied)) =
    some (CallOutcome.success, 2, true) :=
  ⟨c1_amended_single_await.1 "turn on the lights" "xyz" [],
    c1_amended_single_await.2 "xyz" []⟩

/-- C6 counterexample: a schema-valid Done/Success payload for an action id
whose registered waiter is ALREADY resolved (exactly the state produced by a
first delivery of the same payload, before the caller has resumed and torn
the waiter down) makes `handle_webhook` call `set_result` on a done future:
`asyncio.InvalidStateError` escapes and no 200 is returned — so "returns a
200 response for every well-formed payload regardless of whether a matching
waiter exists" is false. -/
theorem c6_counterexample :
    (handle_webhook (webhook_payload "abc" "Done" "Success")
        [("abc", WaiterState.pending)]).response = WebhookResponse.ok ∧
    (handle_webhook (webhook_payload "abc" "Done" "Success")
        ((handle_webhook (webhook_payload "abc" "Done" "Success")
          [("abc", WaiterState.pending)]).handlers)).response =
      WebhookResponse.invalidStateError ∧
    WEBHOOK_SCHEMA (webhook_payload "abc" "Done" "Success") ≠ none := by
  refine ⟨rfl, rfl, by decide⟩

/-- C6 (amended): `handle_webhook` returns 400 (and logs an error) exactly
when the payload fails schema validation; a well-formed payload whose action
id has no registered waiter is acknowledged with 200 as a strict no-op (table
unchanged, nothing raised) — so resolve after teardown is harmless; but a
well-formed Done payload whose id maps to an already-resolved,
not-yet-unregistered waiter raises `InvalidStateError` out of `set_result`
instead of returning 200. -/
theorem c6_amended_ack_discipline :
    (∀ (payload : Json) (table : Handlers),
      ((handle_webhook payload table).response = WebhookResponse.badRequest ↔
        WEBHOOK_SCHEMA payload = none) ∧
      ((handle_webhook payload table).errorLogged = true ↔
        WEBHOOK_SCHEMA payload = none)) ∧
    (∀ (payload : Json) (table : Handlers) (ev : WebhookEvent),
      WEBHOOK_SCHEMA payload = some ev →
      dictGet table ev.remoteActionId = none →
      handle_webhook payload table = ⟨WebhookResponse.ok, table, false⟩) ∧
    (∀ (payload : Json) (table : Handlers) (ev : WebhookEvent)
        (done : EventStatus),
      WEBHOOK_SCHEMA payload = some ev →
      ev.eventStatus.type = "Done" →
      dictGet table ev.remoteActionId = some (WaiterState.resolved done) →
      (handle_webhook payload table).response =
        WebhookResponse.invalidStateError) := by
  refine ⟨?_, ?_, ?_⟩
  · intro payload table
    unfold handle_webhook
    cases hv : WEBHOOK_SCHEMA payload with
    | none => simp
    | some ev =>
      dsimp only
      by_cases hd : ev.eventStatus.type = "Done"
      · rw [if_pos hd]
        cases hw : dictGet table ev.remoteActionId with
        | none => simp
        | some w => cases w <;> simp
      · rw [if_neg hd]; simp
  · intro payload table ev hv hw
    unfold handle_webhook
    rw [hv]
    dsimp only
    rw [hw]
    dsimp only
    rw [ite_self]
  · intro payload table ev done hv hd hw
    unfold handle_webhook
    rw [hv]
    dsimp only
    rw [if_pos hd, hw]

/-- C6 witness: concrete instances — an invalid payload gets 400 with a
logged error, a valid Done payload with no registered waiter is a 200 no-op,
and a valid Done payload over a resolved waiter raises. -/
theorem c6_amended_ack_discipline_witness :
    ((handle_webhook Json.null []).response = WebhookResponse.badRequest ↔
      WEBHOOK_SCHEMA Json.null = none) ∧
    handle_webhook (webhook_payload "abc" "Done" "Success") [] =
      ⟨WebhookResponse.ok, [], false⟩ ∧
    (handle_webhook (webhook_payload "abc" "Done" "Success")
        [("abc", WaiterState.resolved ⟨"Done", some "Success", none⟩)]).response =
      WebhookResponse.invalidStateError :=
  ⟨(c6_amended_ack_discipline.1 Json.null []).1,
    c6_amended_ack_discipline.2.1 (webhook_payload "abc" "Done" "Success") []
      ⟨"abc", "Done", some "Success", none⟩ rfl rfl,
    c6_amended_ack_discipline.2.2 (webhook_payload "abc" "Done" "Success")
      [("abc", WaiterState.resolved ⟨"Done", some "Success", none⟩)]
      ⟨"abc", "Done", some "Success", none⟩ ⟨"Done", some "Success", none⟩
      rfl rfl rfl⟩

theorem handle_webhook_nonresolving (id : String) (payload : Json)
    (t : Handlers) (h : resolvesId id payload = false) :
    dictGet (handle_webhook payload t).handlers id = dictGet t id := by
  unfold resolvesId at h
  unfold handle_webhook
  cases hv : WEBHOOK_SCHEMA payload with
  | none => rfl
  | some ev =>
    rw [hv] at h
    dsimp only at h
    dsimp only
    by_cases hd : ev.eventStatus.type = "Done"
    · have hne : ev.remoteActionId ≠ id := by
        intro he
        rw [he, hd] at h
        simp at h
      rw [if_pos hd]
      cases hw : dictGet t ev.remoteActionId with
      | none => rfl
      | some w =>
        cases w with
        | pending =>
          show dictGet (dictSet t ev.remoteActionId _) id = dictGet t id
          exact dictGet_set_other t ev.remoteActionId id _ (Ne.symm hne)
        | resolved r => rfl
    · rw [if_neg hd]

theorem runCoupledGo_no_done (logger_action id : String) :
    ∀ (ws : List Json) (t : Handlers) (n : Nat)
      (acc : List WebhookResponse),
      (∀ w ∈ ws, resolvesId id w = false) →
      dictGet t id = some WaiterState.pending →
      (runCoupledGo logger_action id ws t n acc).outcome =
        CallOutcome.timedOut ∧
      (runCoupledGo logger_action id ws t n acc).successApplied = false ∧
      (runCoupledGo logger_action id ws t n acc).awaits = n ∧
      (runCoupledGo logger_action id ws t n acc).warnings =
        [confirmation_timeout_warning logger_action] := by
  intro ws
  induction ws with
  | nil => intro t n acc _ _; exact ⟨rfl, rfl, rfl, rfl⟩
  | cons w rest ih =>
    intro t n acc hall hp
    have hw : resolvesId id w = false := hall w (List.mem_cons_self _ _)
    have hframe := handle_webhook_nonresolving id w t hw
    rw [hp] at hframe
    rw [runCoupledGo_step_skip logger_action id w rest t n acc hframe]
    exact ih _ n _ (fun x hx => hall x (List.mem_cons_of_mem w hx)) hframe

/-- C7: when no schema-valid Done webhook for the action id is delivered
within the await window, the caller observes the timeout (the
confirmation-timeout warning is logged), `on_remote_action_success` never
runs, and the toggle entity's state is exactly what it was before the
command. -/
theorem c7_timeout_leaves_state_unchanged :
    ∀ (logger_action id : String) (table0 : Handlers) (webhooks : List Json)
      (state_if_success : Bool) (s0 : Option Bool),
      (∀ w ∈ webhooks, resolvesId id w = false) →
      (runCoupled logger_action id table0 webhooks).outcome =
        CallOutcome.timedOut ∧
      (runCoupled logger_action id table0 webhooks).successApplied = false ∧
      (runCoupled logger_action id table0 webhooks).awaits = 1 ∧
      (runCoupled logger_action id table0 webhooks).warnings =
        [confirmation_timeout_warning logger_action] ∧
      applied_toggle_state
        (runCoupled logger_action id table0 webhooks).successApplied
        state_if_success s0 = s0 := by
  intro logger_action id table0 webhooks state_if_success s0 hall
  have hp : dictGet (callbackEvent_enter id WaiterState.pending table0).1 id =
      some WaiterState.pending := dictGet_set_self table0 id _
  obtain ⟨h1, h2, h3, h4⟩ :=
    runCoupledGo_no_done logger_action id webhooks _ 1 [] hall hp
  refine ⟨h1, h2, h3, h4, ?_⟩
  show applied_toggle_state
    (runCoupledGo logger_action id webhooks
      (callbackEvent_enter id WaiterState.pending table0).1 1 []).successApplied
    state_if_success s0 = s0
  rw [h2]
  rfl

/-- C7 witness: with no webhooks delivered at all, a concrete call times
out, logs the warning, and the entity state `some false` is unchanged. -/
theorem c7_timeout_leaves_state_unchanged_witness :
    (runCoupled "turn on the lights" "abc" [] []).outcome =
      CallOutcome.timedOut ∧
    (runCoupled "turn on the lights" "abc" [] []).successApplied = false ∧
    (runCoupled "turn on the lights" "abc" [] []).awaits = 1 ∧
    (runCoupled "turn on the lights" "abc" [] []).warnings =
      [confirmation_timeout_warning "turn on the lights"] ∧
    applied_toggle_state
      (runCoupled "turn on the lights" "abc" [] []).successApplied
      true (some false) = some false :=
  c7_timeout_leaves_state_unchanged "turn on the lights" "abc" [] [] true
    (some false) (by intro w hw; cases hw)

/-- C8 witness: for the concrete cause "DoorsOpen" the raised message
contains "DoorsOpen". -/
theorem c8_amended_failure_cause_witness :
    (async_call_remote_action "sound the horn" (some "abc")
        [AwaitResult.event ⟨"Done", some "Failed", some "DoorsOpen"⟩] []).map
      CallResult.outcome =
        some (.failed (failure_message (some "DoorsOpen"))) ∧
    strContains (failure_message (some "DoorsOpen")) "DoorsOpen" = true :=
  ⟨(c8_amended_failure_cause "abc" "sound the horn" (some "DoorsOpen") []).1,
    (c8_amended_failure_cause "abc" "sound the horn" (some "DoorsOpen")
      []).2.1 "DoorsOpen" rfl⟩

/-- Well-formedness of a scripted pagination run: the current `next`-link
flag is `true` exactly when another page response follows. -/
def chainNext : Bool → List PageResp → Prop
  | b, [] => b = false
  | b, p :: rest => b = true ∧ chainNext p.hasNext rest

/-- A concrete parsed vehicle record. -/
def vehicleA : VehicleData := ⟨"VIN-A", "veh-a", some "Peugeot", some "208"⟩

/-- Another concrete parsed vehicle record. -/
def vehicleB : VehicleData := ⟨"VIN-B", "veh-b", some "Opel", some "Corsa"⟩

theorem apiGetVehiclesGo_all_ok :
    ∀ (rest : List PageResp) (acc : List VehicleData) (b : Bool),
      (∀ p ∈ rest, p.ok = true) → chainNext b rest →
      apiGetVehiclesGo acc b rest =
        some (.success (acc ++ (rest.map PageResp.vehicles).flatten)) := by
  intro rest
  induction rest with
  | nil =>
    intro acc b _ hc
    rw [show b = false from hc]
    simp [apiGetVehiclesGo]
  | cons p rest ih =>
    intro acc b hall hc
    obtain ⟨hb, hc'⟩ := hc
    subst hb
    rw [show apiGetVehiclesGo acc true (p :: rest) =
        apiGetVehiclesGo (acc ++ p.vehicles) p.hasNext rest by
      simp [apiGetVehiclesGo, hall p (List.mem_cons_self _ _)]]
    rw [ih _ _ (fun q hq => hall q (List.mem_cons_of_mem p hq)) hc']
    simp [List.append_assoc]

theorem coordGetVehiclesGo_all_ok :
    ∀ (rest : List PageResp) (acc : List VehicleData) (b : Bool),
      (∀ p ∈ rest, p.ok = true) → chainNext b rest →
      coordGetVehiclesGo acc b rest =
        some ⟨acc ++ (rest.map PageResp.vehicles).flatten, none, false⟩ := by
  intro rest
  induction rest with
  | nil =>
    intro acc b _ hc
    rw [show b = false from hc]
    simp [coordGetVehiclesGo]
  | cons p rest ih =>
    intro acc b hall hc
    obtain ⟨hb, hc'⟩ := hc
    subst hb
    rw [show coordGetVehiclesGo acc true (p :: rest) =
        coordGetVehiclesGo (acc ++ p.vehicles) p.hasNext rest by
      simp [coordGetVehiclesGo, hall p (List.mem_cons_self _ _)]]
    rw [ih _ _ (fun q hq => hall q (List.mem_cons_of_mem p hq)) hc']
    simp [List.append_assoc]

/-- C9 counterexample: two pages, the second answering with a non-success
status.  `StellantisApi.async_get_vehicles` logs the `ClientResponseError`
and returns `None` — NOT the already-fetched page-1 vehicles — while
`StellantisUpdateCoordinator.get_vehicles` does keep page 1's vehicles but
breaks silently, logging no error.  Neither implementation matches the
claimed "returns only the vehicles from the pages already fetched, with a
logged error". -/
theorem c9_counterexample :
    api_async_get_vehicles ⟨true, [vehicleA], true⟩
        [⟨false, [vehicleB], false⟩] = some ApiVehiclesResult.failure ∧
    some ApiVehiclesResult.failure ≠
      some (ApiVehiclesResult.success [vehicleA]) ∧
    coordinator_get_vehicles ⟨true, [vehicleA], true⟩
        [⟨false, [vehicleB], false⟩] [] =
      some ⟨[vehicleA], none, false⟩ ∧
    (⟨[vehicleA], none, false⟩ : CoordVehiclesResult).errorLogged = false := by
  refine ⟨rfl, by decide, rfl, rfl⟩

/-- C9 (amended): a fully successful multi-page fetch returns the
concatenation of all pages' vehicles in order, in both implementations.
On a non-success later page, `StellantisApi.async_get_vehicles` logs the
error and returns `None`, discarding the pages already fetched, while
`StellantisUpdateCoordinator.get_vehicles` keeps the pages already fetched
and stops WITHOUT logging an error; neither propagates an exception. -/
theorem c9_amended_pagination :
    (∀ (first : PageResp) (rest : List PageResp)
        (vehicles_data : List VehicleData),
      first.ok = true → (∀ p ∈ rest, p.ok = true) →
      chainNext first.hasNext rest →
      api_async_get_vehicles first rest =
        some (.success
          (first.vehicles ++ (rest.map PageResp.vehicles).flatten)) ∧
      coordinator_get_vehicles first rest vehicles_data =
        some ⟨first.vehicles ++ (rest.map PageResp.vehicles).flatten, none,
          false⟩) ∧
    (∀ (first p : PageResp) (rest : List PageResp)
        (vehicles_data : List VehicleData),
      first.ok = true → first.hasNext = true → p.ok = false →
      api_async_get_vehicles first (p :: rest) =
        some ApiVehiclesResult.failure ∧
      coordinator_get_vehicles first (p :: rest) vehicles_data =
        some ⟨first.vehicles, none, false⟩) := by
  constructor
  · intro first rest vehicles_data hok hall hc
    constructor
    · unfold api_async_get_vehicles
      rw [if_pos hok]
      exact apiGetVehiclesGo_all_ok rest first.vehicles first.hasNext hall hc
    · unfold coordinator_get_vehicles
      rw [if_pos hok]
      exact coordGetVehiclesGo_all_ok rest first.vehicles first.hasNext hall hc
  · intro first p rest vehicles_data hok hnext hbad
    constructor
    · unfold api_async_get_vehicles
      rw [if_pos hok]
      unfold apiGetVehiclesGo
      rw [hnext]
      simp [hbad]
    · unfold coordinator_get_vehicles
      rw [if_pos hok]
      unfold coordGetVehiclesGo
      rw [hnext]
      simp [hbad]

/-- C9 witness: a concrete two-page success concatenates in order, and a
concrete page-2 failure gives `None` from the api client and the silent
partial result from the coordinator. -/
theorem c9_amended_pagination_witness :
    (api_async_get_vehicles ⟨true, [vehicleA], true⟩
        [⟨true, [vehicleB], false⟩] =
      some (.success ([vehicleA] ++
        (([⟨true, [vehicleB], false⟩] : List PageResp).map
          PageResp.vehicles).flatten)) ∧
    coordinator_get_vehicles ⟨true, [vehicleA], true⟩
        [⟨true, [vehicleB], false⟩] [] =
      some ⟨[vehicleA] ++
        (([⟨true, [vehicleB], false⟩] : List PageResp).map
          PageResp.vehicles).flatten, none, false⟩) ∧
    api_async_get_vehicles ⟨true, [vehicleA], true⟩
        [⟨false, [vehicleB], false⟩] = some ApiVehiclesResult.failure :=
  ⟨c9_amended_pagination.1 ⟨true, [vehicleA], true⟩
      [⟨true, [vehicleB], false⟩] [] rfl (by decide) ⟨rfl, rfl⟩,
    (c9_amended_pagination.2 ⟨true, [vehicleA], true⟩
      ⟨false, [vehicleB], false⟩ [] [] rfl rfl rfl).1⟩

/-- C10 counterexample: a non-success status poll for "VIN-A" does NOT leave
the previously stored snapshot unchanged: the coordinator overwrites it with
an empty dict (`self.vehicles_status[vehicle.vin] = {}`). -/
theorem c10_counterexample :
    (coordinator_get_vehicle_status "VIN-A" 500 Json.null
        [("VIN-A", Json.obj [("ignition", Json.str "Stop")])]).1 =
      [("VIN-A", Json.obj [])] ∧
    (coordinator_get_vehicle_status "VIN-A" 500 Json.null
        [("VIN-A", Json.obj [("ignition", Json.str "Stop")])]).2 = true ∧
    Json.obj [] ≠ Json.obj [("ignition", Json.str "Stop")] := by
  refine ⟨rfl, rfl, by simp⟩

/-- C10 (amended): on a non-success status response the api helper returns
`None` with a logged error, and the coordinator logs an error and REPLACES
the vehicle's stored snapshot with an empty dict (the prior value is lost,
not kept); other vehicles' entries are unaffected.  On success the body is
stored and other vehicles' entries are likewise unaffected. -/
theorem c10_amended_status_overwrite :
    (∀ (vin : String) (status : Nat) (body : Json) (store : Dict Json),
      status ≠ 200 →
      api_async_get_vehicle_status status body = (none, true) ∧
      dictGet (coordinator_get_vehicle_status vin status body store).1 vin =
        some (Json.obj []) ∧
      (coordinator_get_vehicle_status vin status body store).2 = true ∧
      ∀ k, k ≠ vin →
        dictGet (coordinator_get_vehicle_status vin status body store).1 k =
          dictGet store k) ∧
    (∀ (vin : String) (body : Json) (store : Dict Json),
      api_async_get_vehicle_status 200 body = (some body, false) ∧
      dictGet (coordinator_get_vehicle_status vin 200 body store).1 vin =
        some body ∧
      ∀ k, k ≠ vin →
        dictGet (coordinator_get_vehicle_status vin 200 body store).1 k =
          dictGet store k) := by
  constructor
  · intro vin status body store h
    refine ⟨?_, ?_, ?_, ?_⟩
    · unfold api_async_get_vehicle_status
      rw [if_pos h]
    · unfold coordinator_get_vehicle_status
      rw [if_pos h]
      exact dictGet_set_self store vin _
    · unfold coordinator_get_vehicle_status
      rw [if_pos h]
    · intro k hk
      unfold coordinator_get_vehicle_status
      rw [if_pos h]
      exact dictGet_set_other store vin k _ hk
  · intro vin body store
    have h200 : ¬((200 : Nat) ≠ 200) := by simp
    refine ⟨?_, ?_, ?_⟩
    · unfold api_async_get_vehicle_status
      rw [if_neg h200]
    · unfold coordinator_get_vehicle_status
      rw [if_neg h200]
      exact dictGet_set_self store vin _
    · intro k hk
      unfold coordinator_get_vehicle_status
      rw [if_neg h200]
      exact dictGet_set_other store vin k _ hk

/-- C10 witness: concrete instances of the failed and successful polls. -/
theorem c10_amended_status_overwrite_witness :
    api_async_get_vehicle_status 500 Json.null = (none, true) ∧
    dictGet (coordinator_get_vehicle_status "VIN-A" 500 Json.null []).1
      "VIN-A" = some (Json.obj []) ∧
    dictGet (coordinator_get_vehicle_status "VIN-A" 200
      (Json.obj [("ignition", Json.str "Stop")]) []).1 "VIN-A" =
      some (Json.obj [("ignition", Json.str "Stop")]) :=
  ⟨(c10_amended_status_overwrite.1 "VIN-A" 500 Json.null [] (by decide)).1,
    (c10_amended_status_overwrite.1 "VIN-A" 500 Json.null [] (by decide)).2.1,
    (c10_amended_status_overwrite.2 "VIN-A"
      (Json.obj [("ignition", Json.str "Stop")]) []).2.1⟩

end Stellantis
